import Mathlib

/-!
Verification of the tvshow_tracker service: a shallow embedding of the
HTTP handlers (src/infra/api.py) and the instrumentation decorators
(src/utils/decorator.py), with theorems settling the specification claims.

Modelling conventions:
* machine time (time.time(), datetime.utcnow()) is a `Nat` clock value
  passed explicitly wherever the source reads the ambient clock; the ISO
  timestamp string ordering coincides with the clock ordering;
* Python exceptions are `Except PyExc` results; an uncaught exception is
  `Except.error`;
* the DynamoDB table is a list of items; `ClientError` faults of the store
  client are modelled by an explicit `dbFail` flag selecting the source's
  `except ClientError` branch;
* observable side effects (structured log calls, CloudWatch emission) are
  collected in an event trace.
-/

namespace TvTracker

/-! ### Python JSON values and `int()` conversion (update_episode validation) -/

/-- A JSON value as it arrives in a request body field: a string, an
integer number, or a fractional number (modelled exactly as a rational). -/
inductive PyVal where
  | str (s : String)
  | int (n : Int)
  | float (q : Rat)
deriving DecidableEq, Repr

/-- Digits-only parse of a nonempty digit list, as accepted by Python `int`. -/
def natOfDigits (cs : List Char) : Option Nat :=
  if cs ≠ [] ∧ cs.all Char.isDigit then
    some (cs.foldl (fun a c => a * 10 + (c.toNat - 48)) 0)
  else
    none

/-- Strip leading and trailing whitespace from a character list. -/
def stripSpaces (cs : List Char) : List Char :=
  ((cs.dropWhile Char.isWhitespace).reverse.dropWhile Char.isWhitespace).reverse

/-- Python `int(s)` on a string: optional surrounding whitespace, optional
sign, then decimal digits; anything else raises ValueError (`none`). -/
def parseIntString (s : String) : Option Int :=
  match stripSpaces s.data with
  | '+' :: rest => (natOfDigits rest).map Int.ofNat
  | '-' :: rest => (natOfDigits rest).map (fun n => -(n : Int))
  | cs => (natOfDigits cs).map Int.ofNat

/-- Truncation toward zero, the behaviour of Python `int()` on a float:
`Int.tdiv` is T-division, which rounds toward zero, and the denominator of
a `Rat` is positive. -/
def ratTrunc (q : Rat) : Int :=
  Int.tdiv q.num (Int.ofNat q.den)

/-- Python `int(v)`: identity on ints, truncation on floats, digit parse on
strings; `none` models the ValueError/TypeError the handler catches. -/
def pyToInt : PyVal → Option Int
  | PyVal.int n => some n
  | PyVal.float q => some (ratTrunc q)
  | PyVal.str s => parseIntString s

/-- Truthiness of an optional string parameter: `None` and the empty string
are falsy (the handlers' `if not username` checks). -/
def optStrTruthy : Option String → Bool
  | some s => s != ""
  | none => false

/-! ### Responses -/

/-- A Python exception value: its type name and message. -/
structure PyExc where
  name : String
  msg : String
deriving DecidableEq, Repr

/-- One show row of a `show_user` response (`tv_show`, `season`, `episode`,
`last_updated` copied from the item; missing timestamp becomes the default). -/
structure ShowEntry where
  tv_show : String
  season : Int
  episode : Int
  last_updated : Option Nat
deriving DecidableEq, Repr

/-- One row of a `show_all` response, all five item fields copied. -/
structure FullEntry where
  username : String
  tv_show : String
  season : Int
  episode : Int
  last_updated : Option Nat
deriving DecidableEq, Repr

/-- The JSON bodies the four handlers build with `jsonify`. -/
inductive Body where
  | errorMsg (s : String)
  | message (s : String)
  | episodeView (username tv_show : String) (season episode : Int)
      (last_updated : Option Nat)
  | userView (username : String) (shows : List ShowEntry) (total_shows : Nat)
  | allView (entries : List FullEntry) (total_entries : Nat)
  | updateEcho (message username tv_show : String) (season episode : Int)
deriving DecidableEq, Repr

/-- A handler's return value: either a `(jsonify(...), status)` tuple or a
bare `jsonify(...)` (non-tuple, served with default status 200). -/
inductive HRes where
  | tuple (body : Body) (status : Nat)
  | plain (body : Body)
deriving DecidableEq, Repr

/-- Outcome of running a handler: a return value or an uncaught exception. -/
abbrev HOut := Except PyExc HRes

/-! ### The DynamoDB table -/

/-- A stored item: partition key `username`, sort key `tv_show`, numeric
`season`/`episode`, and the `last_updated` timestamp (optional because the
handlers read it with `item.get('last_updated', '')`). -/
structure Item where
  username : String
  tv_show : String
  season : Int
  episode : Int
  last_updated : Option Nat
deriving DecidableEq, Repr

/-- The table contents. -/
abbrev Table := List Item

/-- Key match for the composite (username, tv_show) primary key. -/
def keyMatch (u t : String) (it : Item) : Bool :=
  it.username == u && it.tv_show == t

/-- DynamoDB `get_item` on the composite key. -/
def get_item (tbl : Table) (u t : String) : Option Item :=
  tbl.find? (keyMatch u t)

/-- DynamoDB `put_item`: full replacement of the item with the same key. -/
def put_item (tbl : Table) (it : Item) : Table :=
  tbl.filter (fun o => !(keyMatch it.username it.tv_show o)) ++ [it]

/-- DynamoDB `query` on the partition key `username`. -/
def query_user (tbl : Table) (u : String) : List Item :=
  tbl.filter (fun it => it.username == u)

/-! ### HTTP handlers (src/infra/api.py) -/

/-- GET /show_episode: 400 on missing params, 404 when no item exists,
200 with the item's fields otherwise; 500 on a store `ClientError`. -/
def show_episode (tbl : Table) (dbFail : Bool)
    (username tv_show : Option String) : HOut :=
  if !(optStrTruthy username) || !(optStrTruthy tv_show) then
    Except.ok (HRes.tuple (Body.errorMsg "Username and tv_show are required") 400)
  else if dbFail then
    Except.ok (HRes.tuple (Body.errorMsg "Database error") 500)
  else
    match get_item tbl (username.getD "") (tv_show.getD "") with
    | some item =>
        Except.ok (HRes.plain (Body.episodeView item.username item.tv_show
          item.season item.episode item.last_updated))
    | none =>
        Except.ok (HRes.tuple (Body.message "No data found for this user and TV show") 404)

/-- GET /show_user: 400 on missing username, otherwise 200 with the user's
query results and their count; 500 on a store `ClientError`. -/
def show_user (tbl : Table) (dbFail : Bool) (username : Option String) : HOut :=
  if !(optStrTruthy username) then
    Except.ok (HRes.tuple (Body.errorMsg "Username is required") 400)
  else if dbFail then
    Except.ok (HRes.tuple (Body.errorMsg "Database error") 500)
  else
    let u := username.getD ""
    let shows := (query_user tbl u).map (fun it =>
      ShowEntry.mk it.tv_show it.season it.episode it.last_updated)
    Except.ok (HRes.plain (Body.userView u shows shows.length))

/-- The JSON body of a POST /update_episode request: each field is `none`
when absent or null. The username and tv_show fields are used as strings. -/
structure ReqData where
  username : Option String
  tv_show : Option String
  season : Option PyVal
  episode : Option PyVal
deriving DecidableEq, Repr

/-- POST /update_episode: 400 when the body or a field is missing, when
`int()` fails on season/episode, or when a converted value is below 1;
otherwise a full-item put stamped with the current time and a 201 echo;
500 on a store `ClientError`. Returns the response and the new table. -/
def update_episode (tbl : Table) (dbFail : Bool) (now : Nat)
    (data : Option ReqData) : HOut × Table :=
  match data with
  | none =>
      (Except.ok (HRes.tuple (Body.errorMsg "JSON data is required") 400), tbl)
  | some d =>
      if !(optStrTruthy d.username) || !(optStrTruthy d.tv_show)
          || !d.season.isSome || !d.episode.isSome then
        (Except.ok (HRes.tuple
          (Body.errorMsg "Username, tv_show, season, and episode are required") 400), tbl)
      else
        match d.season.bind pyToInt, d.episode.bind pyToInt with
        | some season, some episode =>
            if season < 1 ∨ episode < 1 then
              (Except.ok (HRes.tuple
                (Body.errorMsg "Season and episode must be positive integers") 400), tbl)
            else if dbFail then
              (Except.ok (HRes.tuple (Body.errorMsg "Database error") 500), tbl)
            else
              let u := d.username.getD ""
              let t := d.tv_show.getD ""
              (Except.ok (HRes.tuple
                (Body.updateEcho "Episode updated successfully" u t season episode) 201),
               put_item tbl (Item.mk u t season episode (some now)))
        | _, _ =>
            (Except.ok (HRes.tuple
              (Body.errorMsg "Season and episode must be valid integers") 400), tbl)

/-- Validation failure of a request body's season/episode fields, as the
handler's conversion-and-range check decides it: `int()` fails on either
field (or the field is absent), or a converted value is below 1. Used to
state the validation claim. -/
def seInvalid (d : ReqData) : Bool :=
  match d.season.bind pyToInt, d.episode.bind pyToInt with
  | some season, some episode => decide (season < 1) || decide (episode < 1)
  | _, _ => true

/-! ### show_all and scan pagination

The store's scan returns a sequence of pages; a response carries a
`LastEvaluatedKey` continuation marker exactly when further pages follow.
The pages the store would serve are the `pages` list; the marker after
page `i` is present iff `i + 1 < pages.length`. -/

/-- One `table.scan` call: the items of page `i` and whether the response
carries a `LastEvaluatedKey` marker. -/
def scanPage (pages : List (List Item)) (i : Nat) : List Item × Bool :=
  (pages.getD i [], decide (i + 1 < pages.length))

/-- Copy an item's five fields into a `show_all` entry dict. -/
def itemToEntry (it : Item) : FullEntry :=
  FullEntry.mk it.username it.tv_show it.season it.episode it.last_updated

/-- The `while 'LastEvaluatedKey' in response` loop of show_all: as long as
the marker is present, scan the next page and append its entries. `fuel`
bounds the iteration (the page sequence is finite). -/
def show_all_loop (pages : List (List Item)) :
    Nat → Nat → Bool → List FullEntry → List FullEntry
  | 0, _, _, entries => entries
  | _ + 1, _, false, entries => entries
  | fuel + 1, i, true, entries =>
      let (items, more) := scanPage pages (i + 1)
      show_all_loop pages fuel (i + 1) more (entries ++ items.map itemToEntry)

/-- GET /show_all: scans the table, follows continuation markers until
exhausted, and returns all accumulated entries with their count; 500 on a
store `ClientError`. -/
def show_all (pages : List (List Item)) (dbFail : Bool) : HOut :=
  if dbFail then
    Except.ok (HRes.tuple (Body.errorMsg "Database error") 500)
  else
    let (items0, more0) := scanPage pages 0
    let entries := show_all_loop pages pages.length 0 more0 (items0.map itemToEntry)
    Except.ok (HRes.plain (Body.allView entries entries.length))

/-! ### Instrumentation (src/utils/decorator.py)

Each decorator wraps a function of type `Wrapped`: given the request-scoped
`flask.g` context it produces an outcome, the context after the call, and
the trace of observable effects (structured log calls and CloudWatch
traffic) in the order they happen. Ambient clock reads are explicit `Nat`
parameters. -/

/-- The `flask.g` per-request scratch space as the decorators use it. -/
structure Ctx where
  start_time : Option Nat := none
  endpoint : Option String := none
  method : Option String := none
deriving DecidableEq, Repr

/-- The request attributes `log_api_call` reads: `request.endpoint` (may be
None), `request.method`, and the User-Agent header (may be absent). -/
structure ReqInfo where
  endpoint : Option String
  method : String
  user_agent : Option String
deriving DecidableEq, Repr

/-- The `request.endpoint or 'unknown'` read. -/
def ReqInfo.endpointName (r : ReqInfo) : String :=
  r.endpoint.getD "unknown"

/-- The measurement of one request that `track_metrics` hands to the
emitter: the Metric Sample of the specification. -/
structure MetricSample where
  endpoint : String
  method : String
  status_code : Nat
  duration : Nat
  success : Bool
  error_type : Option String
deriving DecidableEq, Repr

/-- One CloudWatch dimension. -/
structure Dimension where
  name : String
  value : String
deriving DecidableEq, Repr

/-- One CloudWatch metric datum. -/
structure MetricDatum where
  metricName : String
  dimensions : List Dimension
  value : Nat
  unit : String
  timestamp : Nat
deriving DecidableEq, Repr

/-- The payload of one `cloudwatch.put_metric_data` call. The first field
is the call's Namespace argument (`namespace` is reserved in Lean). -/
structure MetricPayload where
  nameSpace : String
  metricData : List MetricDatum
deriving DecidableEq, Repr

/-- Observable effects, in program order: the decorators' structured log
calls, a handler's own log calls, the emitter receiving a sample, the sink
accepting the payload, and the emitter's swallowed-failure error log. -/
inductive Event where
  | logStart (endpoint method user_agent : String)
  | logSuccess (endpoint method : String) (status : Nat) (duration_ms : Nat)
  | logError (endpoint method : String) (error error_type : String) (duration_ms : Nat)
  | handlerLog (msg : String)
  | metricEmission (sample : MetricSample)
  | sinkDelivered (payload : MetricPayload)
  | emitFailureLogged (msg : String)
deriving DecidableEq, Repr

/-- Whether an event is the metrics emitter receiving a sample. -/
def Event.isMetricEmission : Event → Bool
  | Event.metricEmission _ => true
  | _ => false

/-- The CloudWatch client: transmitting a payload may raise (sink
unreachable, malformed payload, ...). -/
abbrev SinkFn := MetricPayload → Except PyExc Unit

/-- A CloudWatch client whose transmissions always succeed. -/
def okSink : SinkFn := fun _ => Except.ok ()

/-- The dimension list of `send_metrics_to_cloudwatch`: endpoint, method,
status code, and the error type when one is given. -/
def buildDimensions (endpoint method : String) (status_code : Nat)
    (error_type : Option String) : List Dimension :=
  [Dimension.mk "Endpoint" endpoint,
   Dimension.mk "Method" method,
   Dimension.mk "StatusCode" (toString status_code)] ++
  (match error_type with
   | some et => [Dimension.mk "ErrorType" et]
   | none => [])

/-- The metric data list: RequestCount and ResponseTime always, then
SuccessCount on success and ErrorCount on failure. -/
def buildMetricData (dims : List Dimension) (duration : Nat) (success : Bool)
    (ts : Nat) : List MetricDatum :=
  [MetricDatum.mk "RequestCount" dims 1 "Count" ts,
   MetricDatum.mk "ResponseTime" dims (duration * 1000) "Milliseconds" ts] ++
  (if success then
    [MetricDatum.mk "SuccessCount" dims 1 "Count" ts]
  else
    [MetricDatum.mk "ErrorCount" dims 1 "Count" ts])

/-- send_metrics_to_cloudwatch: builds the dimensions and metric data and
puts them to the sink; the whole body is a try/except that logs and
discards any internal fault, so the call itself returns normally either
way. `ts` is the `datetime.utcnow()` read. The trace records the sample
arriving and then either the delivered payload or the swallowed failure. -/
def send_metrics_to_cloudwatch (sink : SinkFn) (ts : Nat)
    (endpoint method : String) (status_code : Nat) (duration : Nat)
    (success : Bool) (error_type : Option String) :
    Except PyExc Unit × List Event :=
  let sample := MetricSample.mk endpoint method status_code duration success error_type
  let dims := buildDimensions endpoint method status_code error_type
  let payload := MetricPayload.mk "TVShowTracker/API"
    (buildMetricData dims duration success ts)
  (Except.ok (),
   match sink payload with
   | Except.ok _ =>
       [Event.metricEmission sample, Event.sinkDelivered payload]
   | Except.error e =>
       [Event.metricEmission sample,
        Event.emitFailureLogged ("Failed to send metrics to CloudWatch: " ++ e.msg)])

/-- A request-handling function as the decorators see it. -/
abbrev Wrapped := Ctx → HOut × Ctx × List Event

/-- The status-code extraction of log_api_call (decorator.py lines 49-52):
the second component of a tuple result, else the default 200. -/
def logStatusOf : HRes → Nat
  | HRes.tuple _ s => s
  | HRes.plain _ => 200

/-- The status-code extraction of track_metrics (decorator.py lines
106-109): the second component of a tuple result, else the default 200. -/
def metricsStatusOf : HRes → Nat
  | HRes.tuple _ s => s
  | HRes.plain _ => 200

/-- The log_api_call decorator: stores start time, endpoint and method in
`g`, logs API_CALL_START, runs the wrapped function, then logs
API_CALL_SUCCESS with the extracted status (or API_CALL_ERROR with the
exception's text and type) and re-raises any exception unchanged. `t0` is
the entry clock read, `t1` the clock read after the call. -/
def log_api_call (req : ReqInfo) (t0 t1 : Nat) (func : Wrapped) : Wrapped :=
  fun g =>
    let endpoint := req.endpointName
    let method := req.method
    let user_agent := req.user_agent.getD "unknown"
    let g1 : Ctx := { g with
      start_time := some t0, endpoint := some endpoint, method := some method }
    let startEv := Event.logStart endpoint method user_agent
    match func g1 with
    | (Except.ok result, g2, evs) =>
        (Except.ok result, g2,
         startEv :: evs ++
           [Event.logSuccess endpoint method (logStatusOf result) ((t1 - t0) * 1000)])
    | (Except.error e, g2, evs) =>
        (Except.error e, g2,
         startEv :: evs ++
           [Event.logError endpoint method e.msg e.name ((t1 - t0) * 1000)])

/-- The track_metrics decorator: runs the wrapped function, reads start
time/endpoint/method from `g` (falling back to a fresh clock read `t_fb`
and "unknown"), and sends a success sample with the extracted status — or,
when the wrapped function raised, a failure sample with status 500 and the
exception's type name, re-raising the exception afterwards. The source's
try block also covers the success-path emitter call, so an exception from
it would be caught and reported through the failure path; `t1` is the
clock read after the call. -/
def track_metrics (sink : SinkFn) (t_fb t1 : Nat) (func : Wrapped) : Wrapped :=
  fun g =>
    match func g with
    | (Except.ok result, g1, evs) =>
        let start_time := g1.start_time.getD t_fb
        let endpoint := g1.endpoint.getD "unknown"
        let method := g1.method.getD "unknown"
        let duration := t1 - start_time
        let res := send_metrics_to_cloudwatch sink t1 endpoint method
          (metricsStatusOf result) duration true none
        match res.1 with
        | Except.ok _ => (Except.ok result, g1, evs ++ res.2)
        | Except.error e =>
            let res2 := send_metrics_to_cloudwatch sink t1 endpoint method
              500 duration false (some e.name)
            (match res2.1 with
             | Except.ok _ => Except.error e
             | Except.error e2 => Except.error e2,
             g1, evs ++ res.2 ++ res2.2)
    | (Except.error e, g1, evs) =>
        let start_time := g1.start_time.getD t_fb
        let endpoint := g1.endpoint.getD "unknown"
        let method := g1.method.getD "unknown"
        let duration := t1 - start_time
        let res2 := send_metrics_to_cloudwatch sink t1 endpoint method
          500 duration false (some e.name)
        (match res2.1 with
         | Except.ok _ => Except.error e
         | Except.error e2 => Except.error e2,
         g1, evs ++ res2.2)

/-- The full decorator chain as api.py stacks the two defined stages:
log_api_call outermost, then track_metrics. -/
def instrument (req : ReqInfo) (sink : SinkFn) (t0 t1 t_fb t2 : Nat)
    (func : Wrapped) : Wrapped :=
  log_api_call req t0 t1 (track_metrics sink t_fb t2 func)

/-! ### Module-level decorator application (src/infra/api.py)

What the modules define and what api.py imports and stacks, as written. -/

/-- The function names utils/decorator.py defines at module level. -/
def decoratorModuleDefs : List String :=
  ["log_api_call", "track_metrics", "send_metrics_to_cloudwatch",
   "log_database_operation"]

/-- The names api.py imports from utils.decorator (api.py line 4). -/
def apiImportsFromDecorator : List String :=
  ["log_api_call", "track_metrics", "send_http_metrics"]

/-- The four HTTP handler names of api.py. -/
def handlerNames : List String :=
  ["show_episode", "show_user", "update_episode", "show_all"]

/-- The decorators stacked on a handler, outermost first (below the route
registration). Every handler carries the same three. -/
def handlerDecorators (h : String) : List String :=
  if h ∈ handlerNames then
    ["log_api_call", "track_metrics", "send_http_metrics"]
  else
    []

/-- The rational 3.7 in explicit reduced form, the sample fractional season
value of the validation claim. -/
def threePointSevenRat : Rat := ⟨37, 10, by decide, by decide⟩

/-! ### Helper lemmas -/

/-- The emitter's event trace is the sample arriving followed by one event
that is not itself an emission (delivery, or the swallowed-failure log). -/
theorem send_metrics_events (sink : SinkFn) (ts : Nat) (ep m : String)
    (st dur : Nat) (succ : Bool) (errT : Option String) :
    ∃ t, (send_metrics_to_cloudwatch sink ts ep m st dur succ errT).2
        = [Event.metricEmission (MetricSample.mk ep m st dur succ errT), t]
      ∧ t.isMetricEmission = false := by
  dsimp only [send_metrics_to_cloudwatch]
  rcases sink (MetricPayload.mk "TVShowTracker/API"
      (buildMetricData (buildDimensions ep m st errT) dur succ ts)) with _ | e
  · exact ⟨_, rfl, rfl⟩
  · exact ⟨_, rfl, rfl⟩

/-- After a put, looking the item's key up returns exactly that item. -/
theorem get_item_put_item (tbl : Table) (u t : String) (sv ev : Int)
    (lu : Option Nat) :
    get_item (put_item tbl (Item.mk u t sv ev lu)) u t
      = some (Item.mk u t sv ev lu) := by
  unfold get_item put_item
  dsimp only
  rw [List.find?_append]
  have h1 : List.find? (keyMatch u t)
      (List.filter (fun o => !(keyMatch u t o)) tbl) = none := by
    rw [List.find?_eq_none]
    intro x hx
    have hkeep := (List.mem_filter.mp hx).2
    simp only [Bool.not_eq_true'] at hkeep
    simp [hkeep]
  rw [h1]
  simp [List.find?, keyMatch]

/-- The pagination loop, started at page `i` with the marker the store put
on page `i`'s response and enough fuel, appends exactly the remaining
pages' entries to the accumulator. -/
theorem show_all_loop_spec (pages : List (List Item)) :
    ∀ (fuel i : Nat) (acc : List FullEntry), pages.length ≤ i + 1 + fuel →
      show_all_loop pages fuel i (decide (i + 1 < pages.length)) acc
        = acc ++ (List.drop (i + 1) pages).flatten.map itemToEntry := by
  intro fuel
  induction fuel with
  | zero =>
      intro i acc h
      have hd : decide (i + 1 < pages.length) = false := by
        simp only [decide_eq_false_iff_not]
        omega
      rw [hd]
      rw [List.drop_eq_nil_of_le (by omega)]
      simp [show_all_loop]
  | succ f ih =>
      intro i acc h
      by_cases hlt : i + 1 < pages.length
      · have hd : decide (i + 1 < pages.length) = true := by
          simpa using hlt
        rw [hd]
        rw [show_all_loop]
        dsimp only [scanPage]
        rw [ih (i + 1) (acc ++ (pages.getD (i + 1) []).map itemToEntry) (by omega)]
        rw [List.getD_eq_getElem pages [] hlt]
        rw [List.drop_eq_getElem_cons hlt]
        rw [List.flatten_cons, List.map_append, List.append_assoc]
      · have hd : decide (i + 1 < pages.length) = false := by
          simp only [decide_eq_false_iff_not]
          exact hlt
        rw [hd]
        rw [List.drop_eq_nil_of_le (by omega)]
        simp [show_all_loop]

/-! ### The claims -/

/-- C1: the claim states every handler is wrapped by exactly the two
defined stages log_api_call then track_metrics. In the code every handler
stacks three decorators — log_api_call, track_metrics, send_http_metrics —
and the third is imported from utils.decorator, which never defines it, so
importing infra/api.py raises ImportError: the composition is not
well-defined. -/
theorem c1_chain_has_undefined_stage :
    handlerDecorators "show_episode"
      = ["log_api_call", "track_metrics", "send_http_metrics"]
    ∧ handlerDecorators "show_user"
      = ["log_api_call", "track_metrics", "send_http_metrics"]
    ∧ handlerDecorators "update_episode"
      = ["log_api_call", "track_metrics", "send_http_metrics"]
    ∧ handlerDecorators "show_all"
      = ["log_api_call", "track_metrics", "send_http_metrics"]
    ∧ "send_http_metrics" ∈ apiImportsFromDecorator
    ∧ "send_http_metrics" ∉ decoratorModuleDefs
    ∧ handlerDecorators "show_episode" ≠ ["log_api_call", "track_metrics"] := by
  decide

/-- C7: both stages extract the status code of a handler result the same
way — the second component of a (payload, status) tuple, and the default
success status 200 for any non-tuple result. -/
theorem c7_status_extraction_agrees (r : HRes) (b : Body) (s : Nat) :
    logStatusOf r = metricsStatusOf r
    ∧ logStatusOf (HRes.tuple b s) = s
    ∧ metricsStatusOf (HRes.tuple b s) = s
    ∧ logStatusOf (HRes.plain b) = 200
    ∧ metricsStatusOf (HRes.plain b) = 200 := by
  cases r <;> simp [logStatusOf, metricsStatusOf]

/-- C2: the Metrics Emitter returns normally for every sink behaviour
(its try/except swallows any internal fault), and consequently the
response of the fully instrumented handler — status, body and exception
alike — is the same under any sink as under an always-succeeding one. -/
theorem c2_emitter_fault_isolated (sink sink' : SinkFn) (ts : Nat)
    (ep m : String) (st dur : Nat) (succ : Bool) (errT : Option String)
    (req : ReqInfo) (t0 t1 t_fb t2 : Nat) (f : Wrapped) (g : Ctx) :
    (send_metrics_to_cloudwatch sink ts ep m st dur succ errT).1 = Except.ok ()
    ∧ (instrument req sink t0 t1 t_fb t2 f g).1
      = (instrument req sink' t0 t1 t_fb t2 f g).1 := by
  constructor
  · rfl
  · unfold instrument log_api_call track_metrics
    dsimp only
    rcases f (Ctx.mk (some t0) (some req.endpointName) (some req.method)) with
      ⟨r, g2, evs⟩
    cases r <;> rfl

/-- C5: for every page sequence the store's scan serves, show_all returns
exactly the concatenation of all pages (each record exactly once, in
order — no duplicates, no omissions) with total_entries equal to that
list's length. -/
theorem c5_show_all_collects_every_page (pages : List (List Item)) :
    show_all pages false
      = Except.ok (HRes.plain (Body.allView (pages.flatten.map itemToEntry)
          (pages.flatten.map itemToEntry).length)) := by
  unfold show_all
  rw [if_neg (by decide : ¬(false = true))]
  dsimp only [scanPage]
  rw [show_all_loop_spec pages pages.length 0 ((pages.getD 0 []).map itemToEntry)
      (by omega)]
  have hEF : (pages.getD 0 []).map itemToEntry
        ++ (List.drop (0 + 1) pages).flatten.map itemToEntry
      = pages.flatten.map itemToEntry := by
    cases pages with
    | nil => simp
    | cons p ps => simp
  rw [hEF]

/-- Unfolding the full chain around a handler that returns normally: the
result is passed through, and the trace is the start log, the handler's
events, the success-sample emitter events, and the success log. -/
theorem instrument_ok_eq (req : ReqInfo) (sink : SinkFn) (t0 t1 t_fb t2 : Nat)
    (r : HRes) (hEvents : List Event) (g : Ctx) :
    instrument req sink t0 t1 t_fb t2 (fun g0 => (Except.ok r, g0, hEvents)) g
      = (Except.ok r,
         Ctx.mk (some t0) (some req.endpointName) (some req.method),
         Event.logStart req.endpointName req.method (req.user_agent.getD "unknown")
           :: (hEvents ++ (send_metrics_to_cloudwatch sink t2 req.endpointName
                req.method (metricsStatusOf r) (t2 - t0) true none).2)
           ++ [Event.logSuccess req.endpointName req.method (logStatusOf r)
                ((t1 - t0) * 1000)]) :=
  rfl

/-- Unfolding the full chain around a handler that raises: the exception is
re-raised, and the trace is the start log, the handler's events, the
failure-sample emitter events, and the error log. -/
theorem instrument_error_eq (req : ReqInfo) (sink : SinkFn) (t0 t1 t_fb t2 : Nat)
    (e : PyExc) (hEvents : List Event) (g : Ctx) :
    instrument req sink t0 t1 t_fb t2 (fun g0 => (Except.error e, g0, hEvents)) g
      = (Except.error e,
         Ctx.mk (some t0) (some req.endpointName) (some req.method),
         Event.logStart req.endpointName req.method (req.user_agent.getD "unknown")
           :: (hEvents ++ (send_metrics_to_cloudwatch sink t2 req.endpointName
                req.method 500 (t2 - t0) false (some e.name)).2)
           ++ [Event.logError req.endpointName req.method e.msg e.name
                ((t1 - t0) * 1000)]) :=
  rfl

/-- C6: when the wrapped handler raises an exception, track_metrics alone
and the full chain both re-raise that same exception value; the trace
contains a Metric Sample with success false, status 500 and the
exception's type name, and the call-logger's error log naming the type. -/
theorem c6_failure_reraised_unchanged (req : ReqInfo) (sink : SinkFn)
    (t0 t1 t_fb t2 : Nat) (e : PyExc) (hEvents : List Event) (g : Ctx) :
    (track_metrics sink t_fb t2 (fun g0 => (Except.error e, g0, hEvents))
        (Ctx.mk (some t0) (some req.endpointName) (some req.method))).1
      = Except.error e
    ∧ (instrument req sink t0 t1 t_fb t2
        (fun g0 => (Except.error e, g0, hEvents)) g).1 = Except.error e
    ∧ (∃ s : MetricSample,
        Event.metricEmission s ∈ (instrument req sink t0 t1 t_fb t2
          (fun g0 => (Except.error e, g0, hEvents)) g).2.2
        ∧ s.success = false ∧ s.status_code = 500 ∧ s.error_type = some e.name)
    ∧ Event.logError req.endpointName req.method e.msg e.name ((t1 - t0) * 1000)
        ∈ (instrument req sink t0 t1 t_fb t2
            (fun g0 => (Except.error e, g0, hEvents)) g).2.2 := by
  obtain ⟨tl, htl, _⟩ := send_metrics_events sink t2 req.endpointName req.method
    500 (t2 - t0) false (some e.name)
  refine ⟨rfl, rfl, ?_, ?_⟩
  · refine ⟨MetricSample.mk req.endpointName req.method 500 (t2 - t0) false
      (some e.name), ?_, rfl, rfl, rfl⟩
    rw [instrument_error_eq, htl]
    simp
  · rw [instrument_error_eq, htl]
    simp

/-- C8: running the full chain around a handler that produces trace
`hEvents` and any outcome, the whole trace is the start log, then the
handler's own events, then exactly one metric emission followed by two
non-emission events; when the handler itself emits no metrics, the only
metric emission in the trace is that one — so the start log precedes every
emission, and the outcome's emission happens only after the handler has
fully returned or raised. -/
theorem c8_start_log_precedes_emission (req : ReqInfo) (sink : SinkFn)
    (t0 t1 t_fb t2 : Nat) (res : HOut) (hEvents : List Event) (g : Ctx)
    (hno : ∀ ev ∈ hEvents, ev.isMetricEmission = false) :
    ∃ s sinkEv finalEv,
      (instrument req sink t0 t1 t_fb t2 (fun g0 => (res, g0, hEvents)) g).2.2
        = Event.logStart req.endpointName req.method (req.user_agent.getD "unknown")
            :: hEvents ++ [Event.metricEmission s, sinkEv, finalEv]
      ∧ sinkEv.isMetricEmission = false
      ∧ finalEv.isMetricEmission = false
      ∧ (instrument req sink t0 t1 t_fb t2
            (fun g0 => (res, g0, hEvents)) g).2.2.filter Event.isMetricEmission
          = [Event.metricEmission s] := by
  have hfil : hEvents.filter Event.isMetricEmission = [] := by
    rw [List.filter_eq_nil_iff]
    intro ev hev
    simp [hno ev hev]
  cases res with
  | ok r =>
      obtain ⟨tl, htl, htlm⟩ := send_metrics_events sink t2 req.endpointName
        req.method (metricsStatusOf r) (t2 - t0) true none
      refine ⟨MetricSample.mk req.endpointName req.method (metricsStatusOf r)
        (t2 - t0) true none, tl,
        Event.logSuccess req.endpointName req.method (logStatusOf r) ((t1 - t0) * 1000),
        ?_, htlm, rfl, ?_⟩
      · rw [instrument_ok_eq, htl]
        simp
      · rw [instrument_ok_eq, htl]
        simp [List.filter_append, hfil, Event.isMetricEmission]
        exact htlm
  | error e =>
      obtain ⟨tl, htl, htlm⟩ := send_metrics_events sink t2 req.endpointName
        req.method 500 (t2 - t0) false (some e.name)
      refine ⟨MetricSample.mk req.endpointName req.method 500 (t2 - t0) false
        (some e.name), tl,
        Event.logError req.endpointName req.method e.msg e.name ((t1 - t0) * 1000),
        ?_, htlm, rfl, ?_⟩
      · rw [instrument_error_eq, htl]
        simp
      · rw [instrument_error_eq, htl]
        simp [List.filter_append, hfil, Event.isMetricEmission]
        exact htlm

/-- Witness for c8_start_log_precedes_emission at a concrete request. -/
theorem c8_start_log_precedes_emission_witness :
    (∀ ev ∈ [Event.handlerLog "retrieved"], ev.isMetricEmission = false)
    ∧ ∃ s sinkEv finalEv,
      (instrument (ReqInfo.mk (some "api.show_all") "GET" none) okSink 3 5 9 6
          (fun g0 => (Except.ok (HRes.plain (Body.allView [] 0)), g0,
            [Event.handlerLog "retrieved"])) (Ctx.mk none none none)).2.2
        = Event.logStart "api.show_all" "GET" "unknown"
            :: [Event.handlerLog "retrieved"]
              ++ [Event.metricEmission s, sinkEv, finalEv]
      ∧ sinkEv.isMetricEmission = false
      ∧ finalEv.isMetricEmission = false
      ∧ (instrument (ReqInfo.mk (some "api.show_all") "GET" none) okSink 3 5 9 6
          (fun g0 => (Except.ok (HRes.plain (Body.allView [] 0)), g0,
            [Event.handlerLog "retrieved"])) (Ctx.mk none none none)).2.2.filter
            Event.isMetricEmission
          = [Event.metricEmission s] :=
  ⟨by simp [Event.isMetricEmission],
   c8_start_log_precedes_emission (ReqInfo.mk (some "api.show_all") "GET" none)
     okSink 3 5 9 6 (Except.ok (HRes.plain (Body.allView [] 0)))
     [Event.handlerLog "retrieved"] (Ctx.mk none none none)
     (by simp [Event.isMetricEmission])⟩

/-- C3 counterexample: the claim as stated is false — a request whose
season is the fractional number 3.7 is not rejected with 400. Python
`int(3.7)` truncates to 3, so the handler returns 201 and writes a record
with season 3. -/
theorem c3_counterexample_fractional_accepted :
    (update_episode [] false 0 (some (ReqData.mk (some "john_doe")
        (some "Breaking Bad") (some (PyVal.float threePointSevenRat))
        (some (PyVal.int 7))))).1
      = Except.ok (HRes.tuple (Body.updateEcho "Episode updated successfully"
          "john_doe" "Breaking Bad" 3 7) 201)
    ∧ (update_episode [] false 0 (some (ReqData.mk (some "john_doe")
        (some "Breaking Bad") (some (PyVal.float threePointSevenRat))
        (some (PyVal.int 7))))).2
      = [Item.mk "john_doe" "Breaking Bad" 3 7 (some 0)] :=
  ⟨rfl, rfl⟩

/-- C3 (amended): for every update_episode request whose season or episode
fails the handler's `int()` conversion (a non-numeric string, or a missing
field) or converts to an integer below 1, the handler returns 400 and
performs no store write; a fractional number is not rejected but truncated
by `int()` and accepted when the truncated value is at least 1. -/
theorem c3_invalid_season_episode_rejected (tbl : Table) (dbFail : Bool)
    (now : Nat) (d : ReqData) (h : seInvalid d = true) :
    ∃ m, update_episode tbl dbFail now (some d)
        = (Except.ok (HRes.tuple (Body.errorMsg m) 400), tbl) := by
  unfold update_episode
  dsimp only
  by_cases hreq : (!(optStrTruthy d.username) || !(optStrTruthy d.tv_show)
      || !d.season.isSome || !d.episode.isSome) = true
  · rw [if_pos hreq]
    exact ⟨_, rfl⟩
  · rw [if_neg hreq]
    rcases hs : d.season.bind pyToInt with _ | sv
    · exact ⟨_, rfl⟩
    · rcases he : d.episode.bind pyToInt with _ | ev
      · exact ⟨_, rfl⟩
      · have hlt : sv < 1 ∨ ev < 1 := by
          unfold seInvalid at h
          rw [hs, he] at h
          simpa using h
        dsimp only
        rw [if_pos hlt]
        exact ⟨_, rfl⟩

/-- Witness for c3_invalid_season_episode_rejected: a non-numeric season
string is rejected with 400 and the empty store stays empty. -/
theorem c3_invalid_season_episode_rejected_witness :
    seInvalid (ReqData.mk (some "john_doe") (some "Breaking Bad")
      (some (PyVal.str "abc")) (some (PyVal.int 5))) = true
    ∧ ∃ m, update_episode [] false 0 (some (ReqData.mk (some "john_doe")
        (some "Breaking Bad") (some (PyVal.str "abc")) (some (PyVal.int 5))))
        = (Except.ok (HRes.tuple (Body.errorMsg m) 400), ([] : Table)) :=
  ⟨by decide,
   c3_invalid_season_episode_rejected [] false 0 (ReqData.mk (some "john_doe")
     (some "Breaking Bad") (some (PyVal.str "abc")) (some (PyVal.int 5)))
     (by decide)⟩

/-- C4: for every valid input (non-empty username and show title, integer
season and episode at least 1), upserting and then reading back the same
(username, tv_show) pair yields exactly the written season and episode,
with a last_updated stamp not earlier than the upsert call time. -/
theorem c4_upsert_then_get_exact (tbl : Table) (now : Nat) (u t : String)
    (s e : Int) (hu : u ≠ "") (ht : t ≠ "") (hs : 1 ≤ s) (he : 1 ≤ e) :
    ∃ lu, show_episode (update_episode tbl false now (some (ReqData.mk (some u)
        (some t) (some (PyVal.int s)) (some (PyVal.int e))))).2 false
        (some u) (some t)
      = Except.ok (HRes.plain (Body.episodeView u t s e (some lu)))
    ∧ now ≤ lu := by
  refine ⟨now, ?_, Nat.le_refl now⟩
  have hinv : ¬(s < 1 ∨ e < 1) := by omega
  have hupd : update_episode tbl false now (some (ReqData.mk (some u) (some t)
      (some (PyVal.int s)) (some (PyVal.int e))))
      = (Except.ok (HRes.tuple (Body.updateEcho "Episode updated successfully"
          u t s e) 201),
         put_item tbl (Item.mk u t s e (some now))) := by
    simp [update_episode, optStrTruthy, pyToInt, hu, ht, hinv]
  rw [hupd]
  simp [show_episode, optStrTruthy, hu, ht, get_item_put_item]

/-- Witness for c4_upsert_then_get_exact at the spec's worked example. -/
theorem c4_upsert_then_get_exact_witness :
    ("john_doe" : String) ≠ "" ∧ ("Breaking Bad" : String) ≠ ""
    ∧ (1 : Int) ≤ 3 ∧ (1 : Int) ≤ 7
    ∧ ∃ lu, show_episode (update_episode [] false 11 (some (ReqData.mk
        (some "john_doe") (some "Breaking Bad") (some (PyVal.int 3))
        (some (PyVal.int 7))))).2 false (some "john_doe") (some "Breaking Bad")
      = Except.ok (HRes.plain (Body.episodeView "john_doe" "Breaking Bad" 3 7
          (some lu)))
    ∧ 11 ≤ lu :=
  ⟨by decide, by decide, by decide, by decide,
   c4_upsert_then_get_exact [] 11 "john_doe" "Breaking Bad" 3 7
     (by decide) (by decide) (by decide) (by decide)⟩

/-- C9: for a non-empty username whose store query returns no items,
show_user answers with the non-tuple (default 200) userView carrying an
empty shows list and total_shows 0 — a successful empty result, not an
error. -/
theorem c9_unknown_user_empty_ok (tbl : Table) (u : String) (hu : u ≠ "")
    (hq : query_user tbl u = []) :
    show_user tbl false (some u) = Except.ok (HRes.plain (Body.userView u [] 0))
    ∧ logStatusOf (HRes.plain (Body.userView u [] 0)) = 200 := by
  refine ⟨?_, rfl⟩
  simp [show_user, optStrTruthy, hu, hq]

/-- Witness for c9_unknown_user_empty_ok on an empty table. -/
theorem c9_unknown_user_empty_ok_witness :
    ("alice" : String) ≠ "" ∧ query_user [] "alice" = []
    ∧ show_user [] false (some "alice")
        = Except.ok (HRes.plain (Body.userView "alice" [] 0)) :=
  ⟨by decide, rfl,
   (c9_unknown_user_empty_ok [] "alice" (by decide) rfl).1⟩

/-- C10: in every 200 response, the reported count equals the length of
the accompanying list — show_user's total_shows is its shows list's
length, and show_all's total_entries is its entries list's length, for
every store content and page sequence. -/
theorem c10_counts_match_lengths (tbl : Table) (dbF : Bool)
    (username : Option String) (pages : List (List Item)) (dbF2 : Bool)
    (u : String) (shows : List ShowEntry) (n : Nat)
    (entries : List FullEntry) (m : Nat) :
    (show_user tbl dbF username = Except.ok (HRes.plain (Body.userView u shows n))
      → n = shows.length)
    ∧ (show_all pages dbF2 = Except.ok (HRes.plain (Body.allView entries m))
      → m = entries.length) := by
  constructor
  · intro h
    unfold show_user at h
    split at h
    · simp at h
    · split at h
      · simp at h
      · dsimp only at h
        simp only [Except.ok.injEq, HRes.plain.injEq, Body.userView.injEq] at h
        obtain ⟨h1, h2, h3⟩ := h
        subst h2
        exact h3.symm
  · intro h
    unfold show_all at h
    split at h
    · simp at h
    · dsimp only at h
      simp only [Except.ok.injEq, HRes.plain.injEq, Body.allView.injEq] at h
      obtain ⟨h1, h2⟩ := h
      subst h1
      exact h2.symm

/-- Witness for c10_counts_match_lengths on an empty table and page list. -/
theorem c10_counts_match_lengths_witness :
    show_user [] false (some "bob")
        = Except.ok (HRes.plain (Body.userView "bob" [] 0))
    ∧ (0 : Nat) = ([] : List ShowEntry).length :=
  ⟨rfl,
   (c10_counts_match_lengths [] false (some "bob") [] false "bob" [] 0 [] 0).1 rfl⟩

end TvTracker
